import Mathlib

/-!
Verification of the MeetScribe pipeline orchestration core.

This file gives a shallow embedding, in Lean 4, of the parts of the
MeetScribe source that the specification talks about:

* the core data models (`src/meetscribe/core/models.py`),
* the pipeline configuration (`src/meetscribe/core/config.py`),
* the provider factories (`src/meetscribe/inputs/factory.py`,
  `src/meetscribe/converters/factory.py`, `src/meetscribe/llm/factory.py`,
  `src/meetscribe/outputs/factory.py`),
* the pipeline runner (`src/meetscribe/core/runner.py`) and the
  `run` command of the CLI (`src/meetscribe/cli.py`).

Modelling conventions: Python dictionaries with opaque values are
modelled as association lists `List (String × String)`; Python `float`
fields (segment times, audio durations) are modelled as `ℚ` since no
claim involves floating-point arithmetic; `datetime` values are opaque
`String`s; a Python function that can raise is modelled as a function
into `Except String _`; external effects (file system, vendor calls)
are supplied as an explicit environment record.  Methods mutating
`self` are modelled as functions returning the updated value.
-/

/-- Audio technical metadata (`models.py`, class `AudioInfo`). -/
structure AudioInfo where
  duration : ℚ
  samplerate : Int
  codec : String
  channels : Int := 1
  lufs : Option ℚ := none
  peak : Option ℚ := none
  noise_level : Option ℚ := none
  silence_ratio : Option ℚ := none
  bitrate : Option Int := none
  deriving DecidableEq, Repr

/-- Meeting metadata (`models.py`, class `MeetingInfo`). -/
structure MeetingInfo where
  meeting_id : String
  source_type : String
  start_time : String
  end_time : Option String := none
  participants : List String := []
  channel_id : Option String := none
  channel_name : Option String := none
  title : Option String := none
  description : Option String := none
  deriving DecidableEq, Repr

/-- Transcription segment (`models.py`, class `Segment`).  The Python
field `end` is called `endTime` here because `end` is a Lean keyword. -/
structure Segment where
  start : ℚ
  endTime : ℚ
  text : String
  speaker : Option String := none
  confidence : Option ℚ := none
  language : Option String := none
  deriving DecidableEq, Repr

/-- One entry of the processing-history log: the dict
`\x7b"timestamp": ..., "step": ..., "details": ...\x7d` appended by
`Transcript.add_processing_step`. -/
structure ProcessingEntry where
  timestamp : String
  step : String
  details : List (String × String)
  deriving DecidableEq, Repr

/-- Unified transcript object (`models.py`, class `Transcript`). -/
structure Transcript where
  meeting_info : MeetingInfo
  text : Option String := none
  audio_path : Option String := none
  segments : List Segment := []
  audio_info : Option AudioInfo := none
  metadata : List (String × String) := []
  processing_history : List ProcessingEntry := []
  deriving DecidableEq, Repr

/-- `Transcript.add_processing_step`: appends one entry to
`processing_history`.  The call `datetime.now().isoformat()` is an
external effect, so the timestamp is passed in as the argument `now`. -/
def Transcript.add_processing_step (t : Transcript) (now : String) (step : String)
    (details : List (String × String)) : Transcript :=
  { t with processing_history :=
      t.processing_history ++ [⟨now, step, details⟩] }

/-- `Transcript.get_full_text`: returns `self.text` when it is truthy
(set and non-empty), else the newline-join of the segment texts.  Python
truthiness of an optional string: `None` and `""` are falsy. -/
def Transcript.get_full_text (t : Transcript) : String :=
  match t.text with
  | some s => if s = "" then String.intercalate "\n" (t.segments.map (·.text)) else s
  | none => String.intercalate "\n" (t.segments.map (·.text))

/-- A decision recorded in the minutes (`models.py`, class `Decision`). -/
structure Decision where
  description : String
  responsible : Option String := none
  deadline : Option String := none
  deriving DecidableEq, Repr

/-- An action item (`models.py`, class `ActionItem`). -/
structure ActionItem where
  description : String
  assignee : Option String := none
  deadline : Option String := none
  priority : Option String := none
  deriving DecidableEq, Repr

/-- Unified minutes object (`models.py`, class `Minutes`). -/
structure Minutes where
  meeting_id : String
  summary : String
  decisions : List Decision := []
  action_items : List ActionItem := []
  key_points : List String := []
  participants : List String := []
  url : Option String := none
  metadata : List (String × String) := []
  generated_at : String := ""
  deriving DecidableEq, Repr

/-! ### Sample values used by witnesses -/

/-- A concrete meeting-info value used in witnesses. -/
def sampleInfo : MeetingInfo :=
  { meeting_id := "m1", source_type := "file", start_time := "2026-01-01T00:00:00" }

/-- A concrete transcript with no stored full text and two segments. -/
def sampleTranscriptSegs : Transcript :=
  { meeting_info := sampleInfo
    segments := [{ start := 0, endTime := 1, text := "hello" },
                 { start := 1, endTime := 2, text := "world" }] }

/-! ### C9 and C10: Transcript behaviour -/

/-- C9: `Transcript.add_processing_step` is append-only: it appends
exactly one entry (timestamp, step, details) at the end of
`processing_history`, keeps every previously recorded entry unchanged
(the old history is a prefix of the new one), and leaves every other
field of the transcript unchanged. -/
theorem add_processing_step_append_only (t : Transcript) (now step : String)
    (details : List (String × String)) :
    (t.add_processing_step now step details).processing_history
      = t.processing_history ++ [⟨now, step, details⟩]
    ∧ ((t.add_processing_step now step details).processing_history.take
        t.processing_history.length = t.processing_history)
    ∧ (t.add_processing_step now step details).processing_history.length
      = t.processing_history.length + 1
    ∧ (t.add_processing_step now step details).meeting_info = t.meeting_info
    ∧ (t.add_processing_step now step details).text = t.text
    ∧ (t.add_processing_step now step details).audio_path = t.audio_path
    ∧ (t.add_processing_step now step details).segments = t.segments
    ∧ (t.add_processing_step now step details).audio_info = t.audio_info
    ∧ (t.add_processing_step now step details).metadata = t.metadata := by
  refine ⟨rfl, ?_, ?_, rfl, rfl, rfl, rfl, rfl, rfl⟩
  · simp [Transcript.add_processing_step]
  · simp [Transcript.add_processing_step]

/-- C10: `Transcript.get_full_text` returns the stored text when it is
set and non-empty; otherwise (stored text `None` or the empty string)
it returns the segment texts joined with newlines, in segment order,
and the empty string when there are no segments. -/
theorem get_full_text_spec (t : Transcript) :
    (∀ s, t.text = some s → s ≠ "" → t.get_full_text = s)
    ∧ (t.text = none ∨ t.text = some "" →
        t.get_full_text = String.intercalate "\n" (t.segments.map (·.text)))
    ∧ (t.text = none ∨ t.text = some "" → t.segments = [] →
        t.get_full_text = "") := by
  refine ⟨?_, ?_, ?_⟩
  · intro s hs hne
    simp [Transcript.get_full_text, hs, hne]
  · rintro (h | h) <;> simp [Transcript.get_full_text, h]
  · rintro (h | h) hseg <;> simp [Transcript.get_full_text, h, hseg]
    <;> rfl

/-- Witness for C10 at a concrete transcript: text unset, two segments. -/
theorem get_full_text_spec_witness :
    sampleTranscriptSegs.get_full_text = "hello\nworld" := by
  have h := (get_full_text_spec sampleTranscriptSegs).2.1 (Or.inl rfl)
  rw [h]; rfl

/-! ### Configuration model (`src/meetscribe/core/config.py`) -/

/-- Configuration for the INPUT layer (`config.py`, class `InputConfig`).
`params` is a Python dict with opaque values, modelled as an
association list. -/
structure InputConfig where
  provider : String
  params : List (String × String) := []
  deriving DecidableEq, Repr

/-- Configuration for the CONVERT layer (`config.py`, class `ConvertConfig`). -/
structure ConvertConfig where
  engine : String
  params : List (String × String) := []
  deriving DecidableEq, Repr

/-- Configuration for the LLM layer (`config.py`, class `LLMConfig`). -/
structure LLMConfig where
  engine : String
  params : List (String × String) := []
  deriving DecidableEq, Repr

/-- Configuration for one OUTPUT target (`config.py`, class
`OutputConfig`), with the dataclass defaults of the source. -/
structure OutputConfig where
  format : String
  params : List (String × String) := []
  enabled : Bool := true
  on_error : String := "continue"
  execution_group : Int := 0
  depends_on : List String := []
  wait_for_group : Bool := true
  deriving DecidableEq, Repr

/-- The raw dictionary from which `PipelineConfig.from_dict` builds one
`OutputConfig`: the `format` key is mandatory (checked earlier by
`_validate_structure`), every other key optional. -/
structure RawOutputDict where
  format : String
  params : Option (List (String × String)) := none
  enabled : Option Bool := none
  on_error : Option String := none
  execution_group : Option Int := none
  depends_on : Option (List String) := none
  wait_for_group : Option Bool := none
  deriving DecidableEq, Repr

/-- The `OutputConfig(...)` construction inside
`PipelineConfig.from_dict`: each field uses `out.get(key, default)`. -/
def parseOutputConfig (r : RawOutputDict) : OutputConfig :=
  { format := r.format
    params := r.params.getD []
    enabled := r.enabled.getD true
    on_error := r.on_error.getD "continue"
    execution_group := r.execution_group.getD 0
    depends_on := r.depends_on.getD []
    wait_for_group := r.wait_for_group.getD true }

/-- The `output` field of `PipelineConfig` has Python type
`Union[OutputConfig, List[OutputConfig], None]`; the `None` case is the
surrounding `Option`. -/
inductive OutputField where
  | single (cfg : OutputConfig)
  | many (cfgs : List OutputConfig)
  deriving DecidableEq, Repr

/-- Complete pipeline configuration (`config.py`, class
`PipelineConfig`).  `working_dir` is a path modelled as a string;
the `daemon` dict is irrelevant to every claim and modelled opaquely. -/
structure PipelineConfig where
  input : InputConfig
  convert : ConvertConfig
  llm : LLMConfig
  output : Option OutputField := none
  outputs : Option (List OutputConfig) := none
  working_dir : String := "./meetings"
  cleanup_audio : Bool := false
  metadata : List (String × String) := []
  output_execution_mode : String := "auto"
  daemon : Option (List (String × String)) := none
  deriving DecidableEq, Repr

/-- Python truthiness of `self.outputs` (an optional list): `None` and
the empty list are falsy. -/
def outputsTruthy : Option (List OutputConfig) → Bool
  | none => false
  | some l => !l.isEmpty

/-- Python truthiness of `self.output`: `None` is falsy, an empty list
is falsy, a dataclass instance and a non-empty list are truthy. -/
def outputTruthy : Option OutputField → Bool
  | none => false
  | some (.single _) => true
  | some (.many l) => !l.isEmpty

/-- `PipelineConfig.get_outputs`: the enabled output configurations as a
list, with the `outputs`-before-`output` precedence and the Python
truthiness tests of the source. -/
def PipelineConfig.get_outputs (c : PipelineConfig) : List OutputConfig :=
  if outputsTruthy c.outputs then
    (c.outputs.getD []).filter (·.enabled)
  else if outputTruthy c.output then
    match c.output with
    | some (.many l) => l.filter (·.enabled)
    | some (.single oc) => if oc.enabled then [oc] else []
    | none => []
  else []

/-! ### C8: enabled filtering of output targets -/

/-- C8: the list handed to planning contains exactly the enabled specs
in their original order: when the `outputs` list is present and
non-empty it is that list filtered by `enabled`; otherwise the legacy
`output` value (list or single spec) filtered the same way; and
`enabled` defaults to `true` when the key is absent from the raw dict. -/
theorem get_outputs_enabled_filter (c : PipelineConfig) (r : RawOutputDict) :
    (∀ l, c.outputs = some l → l ≠ [] →
        c.get_outputs = l.filter (·.enabled))
    ∧ ((c.outputs = none ∨ c.outputs = some []) →
        ∀ l, c.output = some (.many l) → c.get_outputs = l.filter (·.enabled))
    ∧ ((c.outputs = none ∨ c.outputs = some []) →
        ∀ oc, c.output = some (.single oc) →
          c.get_outputs = if oc.enabled then [oc] else [])
    ∧ (c.outputs = none → c.output = none → c.get_outputs = [])
    ∧ (r.enabled = none → (parseOutputConfig r).enabled = true) := by
  refine ⟨?_, ?_, ?_, ?_, ?_⟩
  · intro l hl hne
    simp [PipelineConfig.get_outputs, outputsTruthy, hl, hne]
  · rintro (h | h) l hout <;>
      simp [PipelineConfig.get_outputs, outputsTruthy, outputTruthy, h, hout] <;>
      cases hl : l.isEmpty <;> simp_all [List.isEmpty_iff]
  · rintro (h | h) oc hout <;>
      simp [PipelineConfig.get_outputs, outputsTruthy, outputTruthy, h, hout]
  · intro h1 h2
    simp [PipelineConfig.get_outputs, outputsTruthy, outputTruthy, h1, h2]
  · intro h
    simp [parseOutputConfig, h]

/-- A concrete configuration with one disabled output among three, used
as the witness input for C8. -/
def sampleConfigOutputs : PipelineConfig :=
  { input := { provider := "file", params := [("audio_path", "./a.mp3")] }
    convert := { engine := "passthrough" }
    llm := { engine := "notebooklm" }
    outputs := some [{ format := "url" },
                     { format := "markdown", enabled := false },
                     { format := "json" }] }

/-- Witness for C8: on a concrete configuration the disabled spec is
dropped and order is preserved. -/
theorem get_outputs_enabled_filter_witness :
    sampleConfigOutputs.get_outputs
      = [{ format := "url" }, { format := "json" }] := by
  have h := (get_outputs_enabled_filter sampleConfigOutputs
      { format := "url" }).1
      [{ format := "url" }, { format := "markdown", enabled := false },
       { format := "json" }] rfl (by decide)
  rw [h]; rfl

/-! ### Execution groups (`PipelineConfig.get_execution_groups`)

The source builds a plain Python `dict` mapping `execution_group` to the
list of output configs of that group.  A Python dict preserves insertion
order, so it is modelled as an association list to which
`dictAppend` adds an element exactly as
`groups.setdefault`-style code does: append to the existing entry if the
key is present, else append a new key at the end. -/

/-- One step of building the groups dict: `groups[group_id].append(cfg)`
creating the key at the end on first use. -/
def dictAppend : List (Int × List OutputConfig) → Int → OutputConfig →
    List (Int × List OutputConfig)
  | [], g, oc => [(g, [oc])]
  | (k, l) :: rest, g, oc =>
    if k = g then (k, l ++ [oc]) :: rest else (k, l) :: dictAppend rest g oc

/-- `PipelineConfig.get_execution_groups`: fold the enabled outputs into
the insertion-ordered dict. -/
def PipelineConfig.get_execution_groups (c : PipelineConfig) :
    List (Int × List OutputConfig) :=
  c.get_outputs.foldl (fun gs oc => dictAppend gs oc.execution_group oc) []

/-- Lookup in the association-list dict (Python `groups[g]` / `g in groups`). -/
def dictFind : List (Int × List OutputConfig) → Int → Option (List OutputConfig)
  | [], _ => none
  | (k, l) :: rest, g => if k = g then some l else dictFind rest g

/-- One step of collecting the distinct values of a list in order of
first appearance. -/
def occStep (acc : List Int) (g : Int) : List Int :=
  if g ∈ acc then acc else acc ++ [g]

/-- The distinct values of a list, in order of first appearance. -/
def firstOccurrences (l : List Int) : List Int :=
  l.foldl occStep []

theorem dictFind_dictAppend_self (gs : List (Int × List OutputConfig))
    (g : Int) (oc : OutputConfig) :
    dictFind (dictAppend gs g oc) g = some ((dictFind gs g).getD [] ++ [oc]) := by
  induction gs with
  | nil => simp [dictAppend, dictFind]
  | cons p rest ih =>
    obtain ⟨k, l⟩ := p
    by_cases hk : k = g
    · subst hk; simp [dictAppend, dictFind]
    · simp [dictAppend, dictFind, hk, ih]

theorem dictFind_dictAppend_ne (gs : List (Int × List OutputConfig))
    (g k : Int) (oc : OutputConfig) (hk : k ≠ g) :
    dictFind (dictAppend gs g oc) k = dictFind gs k := by
  induction gs with
  | nil => simp [dictAppend, dictFind, Ne.symm hk]
  | cons p rest ih =>
    obtain ⟨k', l⟩ := p
    by_cases hk' : k' = g
    · subst hk'
      simp [dictAppend, dictFind, Ne.symm hk]
    · by_cases hkk : k' = k <;>
        simp [dictAppend, dictFind, hk', hkk, hk, ih]

theorem map_fst_dictAppend (gs : List (Int × List OutputConfig))
    (g : Int) (oc : OutputConfig) :
    (dictAppend gs g oc).map Prod.fst =
      if (dictFind gs g).isSome then gs.map Prod.fst
      else gs.map Prod.fst ++ [g] := by
  induction gs with
  | nil => simp [dictAppend, dictFind]
  | cons p rest ih =>
    obtain ⟨k, l⟩ := p
    by_cases hk : k = g
    · subst hk; simp [dictAppend, dictFind]
    · simp only [dictAppend, dictFind, if_neg hk, List.map_cons]
      rw [ih]
      by_cases h : (dictFind rest g).isSome <;> simp [h]

theorem mem_foldl_occStep (l : List Int) (acc : List Int) (x : Int) :
    x ∈ l.foldl occStep acc ↔ x ∈ acc ∨ x ∈ l := by
  induction l generalizing acc with
  | nil => simp
  | cons g rest ih =>
    simp only [List.foldl_cons, ih, List.mem_cons]
    by_cases hg : g ∈ acc
    · simp only [occStep, if_pos hg]
      constructor
      · rintro (h | h)
        · exact Or.inl h
        · exact Or.inr (Or.inr h)
      · rintro (h | h | h)
        · exact Or.inl h
        · exact Or.inl (h ▸ hg)
        · exact Or.inr h
    · simp only [occStep, if_neg hg, List.mem_append, List.mem_singleton]
      constructor
      · rintro ((h | h) | h)
        · exact Or.inl h
        · exact Or.inr (Or.inl h)
        · exact Or.inr (Or.inr h)
      · rintro (h | h | h)
        · exact Or.inl (Or.inl h)
        · exact Or.inl (Or.inr h)
        · exact Or.inr h

theorem nodup_foldl_occStep (l : List Int) (acc : List Int)
    (h : acc.Nodup) : (l.foldl occStep acc).Nodup := by
  induction l generalizing acc with
  | nil => exact h
  | cons g rest ih =>
    simp only [List.foldl_cons]
    by_cases hg : g ∈ acc
    · simpa [occStep, if_pos hg] using ih acc h
    · have hacc : (acc ++ [g]).Nodup := by
        simp [List.nodup_append, h, List.disjoint_singleton, hg]
      simpa [occStep, if_neg hg] using ih (acc ++ [g]) hacc

theorem firstOccurrences_nodup (l : List Int) : (firstOccurrences l).Nodup :=
  nodup_foldl_occStep l [] List.nodup_nil

theorem dictFind_of_mem (gs : List (Int × List OutputConfig))
    (h : (gs.map Prod.fst).Nodup) (g : Int) (l : List OutputConfig)
    (hm : (g, l) ∈ gs) : dictFind gs g = some l := by
  induction gs with
  | nil => simp at hm
  | cons p rest ih =>
    obtain ⟨k, l'⟩ := p
    simp only [List.map_cons, List.nodup_cons] at h
    rcases List.mem_cons.mp hm with he | hm'
    · injection he with h1 h2
      subst h1; subst h2
      simp [dictFind]
    · have hk : k ≠ g := by
        rintro rfl
        exact h.1 (List.mem_map.mpr ⟨(k, l), hm', rfl⟩)
      simp only [dictFind, if_neg hk]
      exact ih h.2 hm'

theorem filter_group_eq_nil (l : List OutputConfig) (g : Int) :
    (l.filter (fun x => x.execution_group == g) = [])
      ↔ g ∉ l.map (·.execution_group) := by
  rw [List.filter_eq_nil_iff]
  simp only [beq_iff_eq, List.mem_map, not_exists, not_and]

theorem groups_fold_spec (outs : List OutputConfig) :
    ∀ (done : List OutputConfig) (gs : List (Int × List OutputConfig)),
    gs.map Prod.fst = firstOccurrences (done.map (·.execution_group)) →
    (∀ g, dictFind gs g =
        if done.filter (fun oc => oc.execution_group == g) = [] then none
        else some (done.filter (fun oc => oc.execution_group == g))) →
    ((outs.foldl (fun acc oc => dictAppend acc oc.execution_group oc) gs).map
        Prod.fst
      = firstOccurrences ((done ++ outs).map (·.execution_group)))
    ∧ (∀ g,
        dictFind (outs.foldl (fun acc oc => dictAppend acc oc.execution_group oc) gs) g
          = if (done ++ outs).filter (fun oc => oc.execution_group == g) = []
            then none
            else some ((done ++ outs).filter (fun oc => oc.execution_group == g))) := by
  induction outs with
  | nil =>
    intro done gs hkeys hfind
    simp only [List.foldl_nil, List.append_nil]
    exact ⟨hkeys, hfind⟩
  | cons oc rest ih =>
    intro done gs hkeys hfind
    have hmem : (dictFind gs oc.execution_group).isSome
        ↔ oc.execution_group ∈ done.map (·.execution_group) := by
      rw [hfind oc.execution_group]
      by_cases h : done.filter (fun x => x.execution_group == oc.execution_group) = []
      · rw [if_pos h]
        simp only [Option.isSome_none, Bool.false_eq_true, false_iff]
        exact (filter_group_eq_nil done oc.execution_group).mp h
      · rw [if_neg h]
        simp only [Option.isSome_some, true_iff]
        by_contra hc
        exact h ((filter_group_eq_nil done oc.execution_group).mpr hc)
    have hkeys' : (dictAppend gs oc.execution_group oc).map Prod.fst
        = firstOccurrences ((done ++ [oc]).map (·.execution_group)) := by
      rw [map_fst_dictAppend, hkeys]
      have hmap : ((done ++ [oc]).map (·.execution_group))
          = done.map (·.execution_group) ++ [oc.execution_group] := by simp
      rw [hmap]
      show _ = (done.map (·.execution_group) ++ [oc.execution_group]).foldl occStep []
      rw [List.foldl_append]
      by_cases h : (dictFind gs oc.execution_group).isSome
      · have hin : oc.execution_group
            ∈ (done.map (·.execution_group)).foldl occStep [] := by
          rw [mem_foldl_occStep]
          exact Or.inr (hmem.mp h)
        simp only [h, if_true, List.foldl_cons, List.foldl_nil, occStep, if_pos hin]
        rfl
      · have hnotin : oc.execution_group
            ∉ (done.map (·.execution_group)).foldl occStep [] := by
          rw [mem_foldl_occStep]
          rintro (hc | hc)
          · simp at hc
          · exact h (hmem.mpr hc)
        simp only [h, if_false, Bool.false_eq_true, List.foldl_cons,
          List.foldl_nil, occStep, if_neg hnotin]
        rfl
    have hfind' : ∀ g, dictFind (dictAppend gs oc.execution_group oc) g =
        if (done ++ [oc]).filter (fun x => x.execution_group == g) = []
        then none
        else some ((done ++ [oc]).filter (fun x => x.execution_group == g)) := by
      intro g
      by_cases hg : g = oc.execution_group
      · subst hg
        rw [dictFind_dictAppend_self, hfind oc.execution_group]
        have hfil : (done ++ [oc]).filter
              (fun x => x.execution_group == oc.execution_group)
            = done.filter (fun x => x.execution_group == oc.execution_group)
              ++ [oc] := by
          simp [List.filter_append]
        rw [hfil]
        by_cases h : done.filter
            (fun x => x.execution_group == oc.execution_group) = []
        · simp [h]
        · simp [h]
      · rw [dictFind_dictAppend_ne gs oc.execution_group g oc hg, hfind g]
        have hpoc : (oc.execution_group == g) = false := by
          simp only [beq_eq_false_iff_ne, ne_eq]
          exact fun hc => hg hc.symm
        have hfil : (done ++ [oc]).filter (fun x => x.execution_group == g)
            = done.filter (fun x => x.execution_group == g) := by
          simp [List.filter_append, hpoc]
        rw [hfil]
    have hres := ih (done ++ [oc]) (dictAppend gs oc.execution_group oc) hkeys' hfind'
    simpa using hres

/-! ### C5: cohort partitioning -/

/-- A concrete configuration whose outputs declare execution groups in
descending order, used for the C5 counterexample and witness. -/
def sampleConfigGroups : PipelineConfig :=
  { input := { provider := "file", params := [("audio_path", "./a.mp3")] }
    convert := { engine := "passthrough" }
    llm := { engine := "notebooklm" }
    outputs := some [{ format := "pdf", execution_group := 2 },
                     { format := "url", execution_group := 1 }] }

/-- C5 counterexample: with specs declared in groups 2 then 1,
`get_execution_groups` yields the cohorts keyed `[2, 1]` — the order of
first appearance, not ascending integer order as the claim states. -/
theorem get_execution_groups_not_ascending :
    (sampleConfigGroups.get_execution_groups).map Prod.fst = [2, 1]
    ∧ ¬ List.Sorted (· ≤ ·)
        ((sampleConfigGroups.get_execution_groups).map Prod.fst) := by
  constructor
  · decide
  · intro h
    rw [show (sampleConfigGroups.get_execution_groups).map Prod.fst = [2, 1]
        from by decide] at h
    have h21 : (2 : Int) ≤ 1 := (List.sorted_cons.mp h).1 1 (by simp)
    omega

/-- C5 (amended): `get_execution_groups` groups the enabled specs by
their `execution_group` value — each cohort is exactly the enabled specs
of that group, in their original relative order — and the cohorts appear
in order of first appearance of each group value in the enabled spec
list (Python dict insertion order), not necessarily ascending. -/
theorem get_execution_groups_spec (c : PipelineConfig) :
    ((c.get_execution_groups).map Prod.fst
      = firstOccurrences (c.get_outputs.map (·.execution_group)))
    ∧ (∀ g l, (g, l) ∈ c.get_execution_groups →
        l = c.get_outputs.filter (fun oc => oc.execution_group == g)) := by
  have h := groups_fold_spec c.get_outputs [] []
    (by simp [firstOccurrences]) (by intro g; simp [dictFind])
  simp only [List.nil_append] at h
  constructor
  · simpa [PipelineConfig.get_execution_groups] using h.1
  · intro g l hm
    rw [PipelineConfig.get_execution_groups] at hm
    have hnd : ((c.get_outputs.foldl
        (fun acc oc => dictAppend acc oc.execution_group oc) []).map
          Prod.fst).Nodup := by
      rw [h.1]; exact firstOccurrences_nodup _
    have hf := dictFind_of_mem _ hnd g l hm
    rw [h.2 g] at hf
    by_cases hc : c.get_outputs.filter (fun oc => oc.execution_group == g) = []
    · rw [if_pos hc] at hf; cases hf
    · rw [if_neg hc] at hf
      exact (Option.some.inj hf).symm

/-- Witness for the amended C5 at the concrete configuration: the cohort
of group 2 is exactly the filtered enabled specs of group 2. -/
theorem get_execution_groups_spec_witness :
    [({ format := "pdf", execution_group := 2 } : OutputConfig)]
      = sampleConfigGroups.get_outputs.filter
          (fun oc => oc.execution_group == 2) :=
  (get_execution_groups_spec sampleConfigGroups).2 2
    [{ format := "pdf", execution_group := 2 }] (by decide)

/-! ### Semantic validation (`PipelineConfig.validate`)

The error strings below keep the identifying head of each source
message; the trailing enumeration of valid names in the source message
is omitted as irrelevant to every claim. -/

/-- Python `str.lower()` (the names involved are ASCII): lowercase the
string character by character. -/
def pyLower (s : String) : String := ⟨s.data.map Char.toLower⟩

/-- Python `str.replace("_", "-")` for a single-character pattern:
replace the character everywhere. -/
def replaceUnderscores (s : String) : String :=
  ⟨s.data.map (fun ch => if ch = '_' then '-' else ch)⟩

/-- Python `str.replace(" ", "-")` for a single-character pattern. -/
def replaceSpaces (s : String) : String :=
  ⟨s.data.map (fun ch => if ch = ' ' then '-' else ch)⟩

/-- `PipelineConfig.VALID_INPUT_PROVIDERS`. -/
def VALID_INPUT_PROVIDERS : List String :=
  ["file", "zip", "discord", "meet", "google-meet", "zoom", "webrtc",
   "obs", "proctap"]

/-- `PipelineConfig.VALID_CONVERT_ENGINES`. -/
def VALID_CONVERT_ENGINES : List String :=
  ["passthrough", "whisper", "whisper-api", "faster-whisper", "gemini",
   "deepgram"]

/-- `PipelineConfig.VALID_LLM_ENGINES`. -/
def VALID_LLM_ENGINES : List String :=
  ["notebooklm", "chatgpt", "gpt", "claude", "gemini"]

/-- `PipelineConfig.VALID_OUTPUT_FORMATS`. -/
def VALID_OUTPUT_FORMATS : List String :=
  ["url", "markdown", "md", "json", "pdf", "docs", "google-docs",
   "sheets", "google-sheets", "webhook", "discord"]

/-- Python `key in params` on the params dict. -/
def containsKey (params : List (String × String)) (k : String) : Bool :=
  params.any (fun p => p.1 == k)

/-- The `for out in self.get_outputs()` loop of `validate`, collecting
an unknown-format error per offending output, in order. -/
def outputFormatErrors : List OutputConfig → List String
  | [] => []
  | o :: rest =>
    (if replaceUnderscores (pyLower o.format) ∈ VALID_OUTPUT_FORMATS then []
     else ["Unknown output format: " ++ o.format]) ++ outputFormatErrors rest

/-- `PipelineConfig._validate_provider_params`: the file provider needs
an `audio_path` param and the zip provider a `zip_path` param; the
whisper api-key and discord webhook-url checks in the source only log
warnings and add no error, so they contribute nothing here. -/
def PipelineConfig._validate_provider_params (c : PipelineConfig) : List String :=
  (if c.input.provider = "file" ∧ containsKey c.input.params "audio_path" = false
   then ["File provider requires audio_path parameter"] else []) ++
  (if c.input.provider = "zip" ∧ containsKey c.input.params "zip_path" = false
   then ["ZIP provider requires zip_path parameter"] else [])

/-- `PipelineConfig.validate`: the semantic validation of the source —
known input provider (lowercased), known convert engine (lowercased,
underscores to dashes), known llm engine (lowercased), known format for
every enabled output (lowercased, underscores to dashes), then the
provider-specific parameter checks. -/
def PipelineConfig.validate (c : PipelineConfig) : List String :=
  (if pyLower c.input.provider ∈ VALID_INPUT_PROVIDERS then []
   else ["Unknown input provider: " ++ c.input.provider]) ++
  (if replaceUnderscores (pyLower c.convert.engine) ∈ VALID_CONVERT_ENGINES
   then [] else ["Unknown convert engine: " ++ c.convert.engine]) ++
  (if pyLower c.llm.engine ∈ VALID_LLM_ENGINES then []
   else ["Unknown LLM engine: " ++ c.llm.engine]) ++
  outputFormatErrors c.get_outputs ++
  c._validate_provider_params

theorem ite_nil_iff (P : Prop) [Decidable P] (m : String) :
    ((if P then ([] : List String) else [m]) = []) ↔ P := by
  split <;> simp_all

theorem ite_cons_nil_iff (P : Prop) [Decidable P] (m : String) :
    ((if P then [m] else ([] : List String)) = []) ↔ ¬P := by
  split <;> simp_all

theorem outputFormatErrors_eq_nil (l : List OutputConfig) :
    outputFormatErrors l = []
      ↔ ∀ o ∈ l, replaceUnderscores (pyLower o.format) ∈ VALID_OUTPUT_FORMATS := by
  induction l with
  | nil => simp [outputFormatErrors]
  | cons o rest ih =>
    simp only [outputFormatErrors, List.append_eq_nil, ih, List.mem_cons,
      ite_nil_iff]
    constructor
    · rintro ⟨h1, h2⟩ x (rfl | hx)
      · exact h1
      · exact h2 x hx
    · intro h
      exact ⟨h o (Or.inl rfl), fun x hx => h x (Or.inr hx)⟩

/-! ### C2: what configuration validation actually checks -/

/-- A concrete configuration whose outputs have a duplicated format, a
dangling `depends_on` reference and a `depends_on` cycle. -/
def sampleConfigDupCycle : PipelineConfig :=
  { input := { provider := "file", params := [("audio_path", "./a.mp3")] }
    convert := { engine := "passthrough" }
    llm := { engine := "notebooklm" }
    outputs := some [{ format := "markdown", depends_on := ["json"] },
                     { format := "markdown", depends_on := ["missing"] },
                     { format := "json", depends_on := ["markdown"] }] }

/-- C2 counterexample: on a batch with a duplicate `format`
(`markdown` twice), a dangling dependency (`missing`) and a dependency
cycle (`markdown` and `json` depend on each other), `validate` reports
no configuration error at all. -/
theorem validate_accepts_dup_dangling_cycle :
    PipelineConfig.validate sampleConfigDupCycle = []
    ∧ sampleConfigDupCycle.get_outputs.map (·.format)
        = ["markdown", "markdown", "json"]
    ∧ sampleConfigDupCycle.get_outputs.map (·.depends_on)
        = [["json"], ["missing"], ["markdown"]] := by
  refine ⟨by decide, by decide, by decide⟩

/-- C2 (amended): semantic validation succeeds exactly when the provider,
engine and format names are known and the provider-specific params are
present; it performs no uniqueness check on formats and no check at all
on `depends_on` (neither dangling references nor cycles are detected). -/
theorem validate_checks_names_only (c : PipelineConfig) :
    c.validate = [] ↔
      (pyLower c.input.provider ∈ VALID_INPUT_PROVIDERS
       ∧ replaceUnderscores (pyLower c.convert.engine) ∈ VALID_CONVERT_ENGINES
       ∧ pyLower c.llm.engine ∈ VALID_LLM_ENGINES
       ∧ (∀ o ∈ c.get_outputs,
            replaceUnderscores (pyLower o.format) ∈ VALID_OUTPUT_FORMATS)
       ∧ (c.input.provider = "file" →
            containsKey c.input.params "audio_path" = true)
       ∧ (c.input.provider = "zip" →
            containsKey c.input.params "zip_path" = true)) := by
  simp only [PipelineConfig.validate, PipelineConfig._validate_provider_params,
    List.append_eq_nil, ite_nil_iff, ite_cons_nil_iff, outputFormatErrors_eq_nil,
    not_and, Bool.not_eq_false, and_assoc]

/-- Witness for the amended C2 at a concrete valid configuration. -/
theorem validate_checks_names_only_witness :
    PipelineConfig.validate sampleConfigOutputs = [] :=
  (validate_checks_names_only sampleConfigOutputs).mpr (by decide)

/-! ### Provider factories

Each factory normalizes the name, walks its chain of built-in branches,
and only in the final `else` consults the plugin registry; `ValueError`
and `NotImplementedError` are both modelled as `Except.error`.  The
plugin registry lookup `PluginRegistry().get_plugin_class(name)` is
modelled as the boolean function `registry` saying whether a plugin
class is registered under the (normalized) name; a hit constructs the
plugin provider for that name. -/

/-- The implementations `get_input_provider` can return
(`src/meetscribe/inputs/factory.py`). -/
inductive InputProviderImpl where
  | FileProvider
  | ZipProvider
  | GoogleMeetProvider
  | DiscordBotProvider
  | WebRTCProvider
  | OBSProvider
  | plugin (name : String)
  deriving DecidableEq, Repr

/-- `get_input_provider` from `inputs/factory.py`: name lowercased with
underscores and spaces turned into dashes, built-ins first, plugin
registry fallback, `ValueError` otherwise. -/
def get_input_provider (registry : String → Bool) (provider_name : String) :
    Except String InputProviderImpl :=
  let provider := replaceSpaces (replaceUnderscores (pyLower provider_name))
  if provider = "file" then .ok .FileProvider
  else if provider = "zip" then .ok .ZipProvider
  else if provider ∈ ["meet", "google-meet", "gmeet"] then .ok .GoogleMeetProvider
  else if provider ∈ ["discord", "discord-bot"] then .ok .DiscordBotProvider
  else if provider = "webrtc" then .ok .WebRTCProvider
  else if provider = "obs" then .ok .OBSProvider
  else if provider = "zoom" then .error "Zoom provider not yet implemented"
  else if provider = "proctap" then .error "ProcTap provider not yet implemented"
  else if registry provider then .ok (.plugin provider)
  else .error ("Unsupported input provider: " ++ provider_name)

/-- The implementations `get_converter` can return
(`src/meetscribe/converters/factory.py`). -/
inductive ConverterImpl where
  | PassthroughConverter
  | WhisperAPIConverter
  | FasterWhisperConverter
  | GeminiAudioConverter
  | DeepgramConverter
  | plugin (name : String)
  deriving DecidableEq, Repr

/-- `get_converter` from `converters/factory.py`: the engine name is
lowercased and underscores become dashes (no space replacement in this
factory). -/
def get_converter (registry : String → Bool) (engine_name : String) :
    Except String ConverterImpl :=
  let engine := replaceUnderscores (pyLower engine_name)
  if engine = "passthrough" then .ok .PassthroughConverter
  else if engine ∈ ["whisper", "whisper-api"] then .ok .WhisperAPIConverter
  else if engine = "faster-whisper" then .ok .FasterWhisperConverter
  else if engine ∈ ["gemini", "gemini-audio"] then .ok .GeminiAudioConverter
  else if engine = "deepgram" then .ok .DeepgramConverter
  else if registry engine then .ok (.plugin engine)
  else .error ("Unsupported converter engine: " ++ engine_name)

/-- The implementations `get_llm_provider` can return
(`src/meetscribe/llm/factory.py`). -/
inductive LLMProviderImpl where
  | NotebookLMProvider
  | ChatGPTProvider
  | ClaudeProvider
  | GeminiProvider
  | plugin (name : String)
  deriving DecidableEq, Repr

/-- `get_llm_provider` from `llm/factory.py`: lowercased, underscores
and spaces become dashes. -/
def get_llm_provider (registry : String → Bool) (engine_name : String) :
    Except String LLMProviderImpl :=
  let engine := replaceSpaces (replaceUnderscores (pyLower engine_name))
  if engine = "notebooklm" then .ok .NotebookLMProvider
  else if engine ∈ ["chatgpt", "gpt", "openai", "gpt-4", "gpt-3.5"] then
    .ok .ChatGPTProvider
  else if engine ∈ ["claude", "anthropic", "claude-3"] then .ok .ClaudeProvider
  else if engine ∈ ["gemini", "google", "bard"] then .ok .GeminiProvider
  else if registry engine then .ok (.plugin engine)
  else .error ("Unsupported LLM engine: " ++ engine_name)

/-- The renderers `get_output_renderer` can return
(`src/meetscribe/outputs/factory.py`); this factory has no plugin
fallback. -/
inductive OutputRendererImpl where
  | URLRenderer
  | MarkdownRenderer
  | JSONRenderer
  | PDFRenderer
  | GoogleDocsRenderer
  | GoogleSheetsRenderer
  | DiscordWebhookRenderer
  deriving DecidableEq, Repr

/-- `get_output_renderer` from `outputs/factory.py`. -/
def get_output_renderer (format_name : String) :
    Except String OutputRendererImpl :=
  let fmt := replaceSpaces (replaceUnderscores (pyLower format_name))
  if fmt = "url" then .ok .URLRenderer
  else if fmt ∈ ["markdown", "md"] then .ok .MarkdownRenderer
  else if fmt = "json" then .ok .JSONRenderer
  else if fmt = "pdf" then .ok .PDFRenderer
  else if fmt ∈ ["docs", "google-docs", "gdocs"] then .ok .GoogleDocsRenderer
  else if fmt ∈ ["sheets", "google-sheets", "spreadsheet", "gsheets"] then
    .ok .GoogleSheetsRenderer
  else if fmt ∈ ["webhook", "discord-webhook", "discord"] then
    .ok .DiscordWebhookRenderer
  else .error ("Unsupported output format: " ++ format_name)

/-! ### C6: built-ins shadow the plugin registry -/

/-- Every normalized name matched by a built-in branch of
`get_input_provider`, including the two not-yet-implemented ones that
raise before the registry is consulted. -/
def builtinInputNames : List String :=
  ["file", "zip", "meet", "google-meet", "gmeet", "discord", "discord-bot",
   "webrtc", "obs", "zoom", "proctap"]

/-- Every normalized name matched by a built-in branch of `get_converter`. -/
def builtinConverterNames : List String :=
  ["passthrough", "whisper", "whisper-api", "faster-whisper", "gemini",
   "gemini-audio", "deepgram"]

/-- Every normalized name matched by a built-in branch of
`get_llm_provider`. -/
def builtinLLMNames : List String :=
  ["notebooklm", "chatgpt", "gpt", "openai", "gpt-4", "gpt-3.5", "claude",
   "anthropic", "claude-3", "gemini", "google", "bard"]

/-- C6: for each of the three factories with a plugin fallback, a name
whose normalization matches a built-in resolves without consulting the
registry — the result is the same under any two registries — and is
never a plugin, so a plugin registered under a built-in name can never
shadow the built-in. -/
theorem builtin_resolution_precedence (name : String)
    (reg1 reg2 : String → Bool) :
    (replaceSpaces (replaceUnderscores (pyLower name)) ∈ builtinInputNames →
      get_input_provider reg1 name = get_input_provider reg2 name
      ∧ ∀ p, get_input_provider reg1 name ≠ .ok (.plugin p))
    ∧ (replaceUnderscores (pyLower name) ∈ builtinConverterNames →
      get_converter reg1 name = get_converter reg2 name
      ∧ ∀ p, get_converter reg1 name ≠ .ok (.plugin p))
    ∧ (replaceSpaces (replaceUnderscores (pyLower name)) ∈ builtinLLMNames →
      get_llm_provider reg1 name = get_llm_provider reg2 name
      ∧ ∀ p, get_llm_provider reg1 name ≠ .ok (.plugin p)) := by
  refine ⟨?_, ?_, ?_⟩
  · intro h
    simp only [builtinInputNames, List.mem_cons, List.not_mem_nil, or_false] at h
    rcases h with h | h | h | h | h | h | h | h | h | h | h <;>
      simp [get_input_provider, h]
  · intro h
    simp only [builtinConverterNames, List.mem_cons, List.not_mem_nil,
      or_false] at h
    rcases h with h | h | h | h | h | h | h <;>
      simp [get_converter, h]
  · intro h
    simp only [builtinLLMNames, List.mem_cons, List.not_mem_nil, or_false] at h
    rcases h with h | h | h | h | h | h | h | h | h | h | h | h <;>
      simp [get_llm_provider, h]

/-- Witness for C6: the name File (normalizing to the built-in file)
resolves identically whether or not a plugin named file is registered. -/
theorem builtin_resolution_precedence_witness :
    get_input_provider (fun _ => true) "File"
      = get_input_provider (fun _ => false) "File" :=
  ((builtin_resolution_precedence "File" (fun _ => true) (fun _ => false)).1
    (by decide)).1

/-! ### The pipeline runner (`src/meetscribe/core/runner.py`)

`PipelineRunner.run` drives INPUT, CONVERT, LLM, OUTPUT and the optional
audio cleanup inside one `try` block whose `except` clause re-raises any
exception as `RuntimeError("Pipeline execution failed: ...")`.  The
external effects are an environment record; besides the result, the
model returns the trace of stage invocations, in order, so that claims
about ordering and about which stages ever execute are statable. -/

/-- External collaborators of one pipeline run: `record` is the INPUT
provider, `transcribe` the CONVERT provider, `generate_minutes` the LLM
provider, `render` the OUTPUT renderer, and `pathExists` and `unlink`
the file-system calls used by the cleanup step. -/
structure RunEnv where
  record : String → Except String String
  transcribe : String → String → Except String Transcript
  generate_minutes : Transcript → Except String Minutes
  render : OutputRendererImpl → Minutes → String → Except String String
  pathExists : String → Bool
  unlink : String → Except String Unit

/-- One observable stage invocation of a run, with the values passed. -/
inductive Event where
  | acquire (mid : String)
  | transcribe (audioPath mid : String)
  | summarize (t : Transcript)
  | output (r : OutputRendererImpl) (m : Minutes) (mid : String)
  | cleanup (audioPath : String)
  deriving DecidableEq, Repr

/-- The stage index of an event in pipeline order. -/
def evKind : Event → Nat
  | .acquire _ => 0
  | .transcribe _ _ => 1
  | .summarize _ => 2
  | .output _ _ _ => 3
  | .cleanup _ => 4

/-- The message of the `RuntimeError` raised by the except clause of
`PipelineRunner.run`. -/
def pipelineFailed (e : String) : String := "Pipeline execution failed: " ++ e

/-- `PipelineRunner.run`: record, transcribe, generate minutes, render,
then — only when `cleanup_audio` is set and the audio file exists —
unlink the audio.  Any exception, the cleanup included, propagates as
`RuntimeError`; on success the rendered output path is returned. -/
def PipelineRunner.run (env : RunEnv) (cfg : PipelineConfig)
    (output_renderer : OutputRendererImpl) (meeting_id : String) :
    List Event × Except String String :=
  match env.record meeting_id with
  | .error e => ([.acquire meeting_id], .error (pipelineFailed e))
  | .ok audio_path =>
    match env.transcribe audio_path meeting_id with
    | .error e =>
        ([.acquire meeting_id, .transcribe audio_path meeting_id],
         .error (pipelineFailed e))
    | .ok transcript =>
      match env.generate_minutes transcript with
      | .error e =>
          ([.acquire meeting_id, .transcribe audio_path meeting_id,
            .summarize transcript], .error (pipelineFailed e))
      | .ok minutes =>
        match env.render output_renderer minutes meeting_id with
        | .error e =>
            ([.acquire meeting_id, .transcribe audio_path meeting_id,
              .summarize transcript,
              .output output_renderer minutes meeting_id],
             .error (pipelineFailed e))
        | .ok output_path =>
          if cfg.cleanup_audio && env.pathExists audio_path then
            match env.unlink audio_path with
            | .error e =>
                ([.acquire meeting_id, .transcribe audio_path meeting_id,
                  .summarize transcript,
                  .output output_renderer minutes meeting_id,
                  .cleanup audio_path], .error (pipelineFailed e))
            | .ok _ =>
                ([.acquire meeting_id, .transcribe audio_path meeting_id,
                  .summarize transcript,
                  .output output_renderer minutes meeting_id,
                  .cleanup audio_path], .ok output_path)
          else
            ([.acquire meeting_id, .transcribe audio_path meeting_id,
              .summarize transcript,
              .output output_renderer minutes meeting_id],
             .ok output_path)

/-- The composite of the three single-valued stages, used to state when
the runner aborts before the output stage. -/
def stagesResult (env : RunEnv) (meeting_id : String) : Except String Minutes :=
  match env.record meeting_id with
  | .error e => .error e
  | .ok audio_path =>
    match env.transcribe audio_path meeting_id with
    | .error e => .error e
    | .ok transcript => env.generate_minutes transcript

/-- The `validate_config()` results of the four configured components,
as consumed by `PipelineRunner.validate`. -/
structure ComponentValidity where
  input : Bool
  convert : Bool
  llm : Bool
  output : Bool
  deriving DecidableEq, Repr

/-- `PipelineRunner.validate`: raise `ValueError` at the first component
whose `validate_config()` returned false, else return `True`. -/
def PipelineRunner.validate (v : ComponentValidity) : Except String Bool :=
  if v.input = false then .error "INPUT provider config is invalid"
  else if v.convert = false then .error "CONVERT provider config is invalid"
  else if v.llm = false then .error "LLM provider config is invalid"
  else if v.output = false then .error "OUTPUT renderer config is invalid"
  else .ok true

/-- `PipelineRunner._setup_output_renderer`: reads
`self.config.output.format` — the legacy single `output` field, never
`outputs` — and resolves it through the output factory.  When `output`
is `None` (for instance when the configuration used the `outputs` key)
or a list, the attribute access `.format` raises. -/
def PipelineRunner._setup_output_renderer (c : PipelineConfig) :
    Except String OutputRendererImpl :=
  match c.output with
  | some (.single oc) => get_output_renderer oc.format
  | some (.many _) =>
      .error "AttributeError: list object has no attribute format"
  | none => .error "AttributeError: NoneType object has no attribute format"

/-- `cmd_run` from `cli.py`: set up the runner, validate it, then run.
The input, convert and llm setup steps resolve to the functions already
carried by `RunEnv`; the output renderer setup is modelled explicitly
because it selects what the output stage executes. -/
def cmd_run (env : RunEnv) (v : ComponentValidity) (cfg : PipelineConfig)
    (meeting_id : String) : List Event × Except String String :=
  match PipelineRunner._setup_output_renderer cfg with
  | .error e => ([], .error e)
  | .ok renderer =>
    match PipelineRunner.validate v with
    | .error e => ([], .error e)
    | .ok _ => PipelineRunner.run env cfg renderer meeting_id

/-! ### Sample environments used by witnesses and counterexamples -/

/-- Concrete minutes value. -/
def sampleMinutes : Minutes := { meeting_id := "m1", summary := "sum" }

/-- An environment in which every stage succeeds. -/
def envStub : RunEnv :=
  { record := fun _ => .ok "audio.wav"
    transcribe := fun _ _ => .ok sampleTranscriptSegs
    generate_minutes := fun _ => .ok sampleMinutes
    render := fun _ _ _ => .ok "out.md"
    pathExists := fun _ => true
    unlink := fun _ => .ok () }

/-- Environment whose LLM stage fails. -/
def envFailSummarize : RunEnv :=
  { envStub with generate_minutes := fun _ => .error "no content" }

/-- Environment whose output render fails. -/
def envRenderFail : RunEnv :=
  { envStub with render := fun _ _ _ => .error "render boom" }

/-- Environment whose audio unlink fails. -/
def envUnlinkFail : RunEnv :=
  { envStub with unlink := fun _ => .error "unlink boom" }

/-- Concrete configuration with cleanup enabled and a single legacy
markdown output. -/
def sampleConfigCleanup : PipelineConfig :=
  { input := { provider := "file", params := [("audio_path", "./a.mp3")] }
    convert := { engine := "passthrough" }
    llm := { engine := "notebooklm" }
    output := some (.single { format := "markdown" })
    cleanup_audio := true }

/-! ### C3: stage order and abort before output -/

/-- C3: the runner executes acquire, transcribe, summarize strictly in
that order (the invocation trace is always a prefix of the canonical
stage order), the output stage is only ever invoked with the minutes
produced by feeding each stage the previous one's result, and a failure
in any of the three single-valued stages makes the run abort with a
fatal error with the output stage never invoked. -/
theorem stage_order_and_abort (env : RunEnv) (cfg : PipelineConfig)
    (r : OutputRendererImpl) (mid : String) :
    ((PipelineRunner.run env cfg r mid).1.map evKind = [0]
     ∨ (PipelineRunner.run env cfg r mid).1.map evKind = [0, 1]
     ∨ (PipelineRunner.run env cfg r mid).1.map evKind = [0, 1, 2]
     ∨ (PipelineRunner.run env cfg r mid).1.map evKind = [0, 1, 2, 3]
     ∨ (PipelineRunner.run env cfg r mid).1.map evKind = [0, 1, 2, 3, 4])
    ∧ (∀ r' m i, Event.output r' m i ∈ (PipelineRunner.run env cfg r mid).1 →
        r' = r ∧ i = mid
        ∧ ∃ a t, env.record mid = .ok a ∧ env.transcribe a mid = .ok t
            ∧ env.generate_minutes t = .ok m)
    ∧ (∀ e, stagesResult env mid = .error e →
        (PipelineRunner.run env cfg r mid).2 = .error (pipelineFailed e)
        ∧ ∀ r' m i, Event.output r' m i ∉ (PipelineRunner.run env cfg r mid).1) := by
  rcases h1 : env.record mid with e1 | a
  · refine ⟨?_, ?_, ?_⟩
    · simp [PipelineRunner.run, h1, evKind]
    · intro r' m i hm
      simp [PipelineRunner.run, h1] at hm
    · intro e he
      simp only [stagesResult, h1, Except.error.injEq] at he
      subst he
      simp [PipelineRunner.run, h1]
  · rcases h2 : env.transcribe a mid with e2 | t
    · refine ⟨?_, ?_, ?_⟩
      · simp [PipelineRunner.run, h1, h2, evKind]
      · intro r' m i hm
        simp [PipelineRunner.run, h1, h2] at hm
      · intro e he
        simp only [stagesResult, h1, h2, Except.error.injEq] at he
        subst he
        simp [PipelineRunner.run, h1, h2]
    · rcases h3 : env.generate_minutes t with e3 | m0
      · refine ⟨?_, ?_, ?_⟩
        · simp [PipelineRunner.run, h1, h2, h3, evKind]
        · intro r' m i hm
          simp [PipelineRunner.run, h1, h2, h3] at hm
        · intro e he
          simp only [stagesResult, h1, h2, h3, Except.error.injEq] at he
          subst he
          simp [PipelineRunner.run, h1, h2, h3]
      · refine ⟨?_, ?_, ?_⟩
        · rcases h4 : env.render r m0 mid with e4 | o
          · simp [PipelineRunner.run, h1, h2, h3, h4, evKind]
          · rcases h5 : cfg.cleanup_audio && env.pathExists a with _ | _
            · simp [PipelineRunner.run, h1, h2, h3, h4, h5, evKind]
            · rcases h6 : env.unlink a with e6 | u <;>
                simp [PipelineRunner.run, h1, h2, h3, h4, h5, h6, evKind]
        · intro r' m i hm
          rcases h4 : env.render r m0 mid with e4 | o
          · simp [PipelineRunner.run, h1, h2, h3, h4] at hm
            obtain ⟨hr, hmm, hi⟩ := hm
            subst hr; subst hmm; subst hi
            exact ⟨rfl, rfl, a, t, rfl, h2, h3⟩
          · rcases h5 : cfg.cleanup_audio && env.pathExists a with _ | _
            · simp [PipelineRunner.run, h1, h2, h3, h4, h5] at hm
              obtain ⟨hr, hmm, hi⟩ := hm
              subst hr; subst hmm; subst hi
              exact ⟨rfl, rfl, a, t, rfl, h2, h3⟩
            · rcases h6 : env.unlink a with e6 | u <;>
              · simp [PipelineRunner.run, h1, h2, h3, h4, h5, h6] at hm
                obtain ⟨hr, hmm, hi⟩ := hm
                subst hr; subst hmm; subst hi
                exact ⟨rfl, rfl, a, t, rfl, h2, h3⟩
        · intro e he
          simp [stagesResult, h1, h2, h3] at he

/-- Witness for C3: when the summarize stage fails, the run aborts with
the wrapped fatal error. -/
theorem stage_order_and_abort_witness :
    (PipelineRunner.run envFailSummarize sampleConfigCleanup
        .MarkdownRenderer "m1").2
      = .error (pipelineFailed "no content") :=
  ((stage_order_and_abort envFailSummarize sampleConfigCleanup
      .MarkdownRenderer "m1").2.2 "no content" rfl).1

/-! ### C4: when cleanup actually runs -/

/-- C4 counterexample: with cleanup enabled and the audio file present,
(1) when the output stage fails, cleanup is never invoked — although the
claim says it runs whatever the output outcome — and (2) when the unlink
inside cleanup fails, the failure propagates as the error of the run —
although the claim says it is logged and never propagated. -/
theorem cleanup_not_best_effort :
    ((PipelineRunner.run envRenderFail sampleConfigCleanup
        .MarkdownRenderer "m1").1.filter (fun ev => evKind ev == 4) = [])
    ∧ (PipelineRunner.run envUnlinkFail sampleConfigCleanup
        .MarkdownRenderer "m1").2 = .error (pipelineFailed "unlink boom") :=
  ⟨rfl, rfl⟩

/-- C4 (amended): cleanup is invoked at most once, and it is invoked
exactly when all four stages — the output render included — succeeded,
cleanup is enabled and the audio file exists; in particular it never
runs when the run aborted before Minutes was produced, and never when
the output stage failed.  A failure inside cleanup propagates as the
error of the run (it is not swallowed). -/
theorem cleanup_after_output_success (env : RunEnv) (cfg : PipelineConfig)
    (r : OutputRendererImpl) (mid : String) :
    (((PipelineRunner.run env cfg r mid).1.filter
        (fun ev => evKind ev == 4)).length ≤ 1)
    ∧ ((∃ p, Event.cleanup p ∈ (PipelineRunner.run env cfg r mid).1) ↔
        (∃ a t m o, env.record mid = .ok a ∧ env.transcribe a mid = .ok t
          ∧ env.generate_minutes t = .ok m ∧ env.render r m mid = .ok o
          ∧ cfg.cleanup_audio = true ∧ env.pathExists a = true))
    ∧ (∀ a t m o e, env.record mid = .ok a → env.transcribe a mid = .ok t →
        env.generate_minutes t = .ok m → env.render r m mid = .ok o →
        cfg.cleanup_audio = true → env.pathExists a = true →
        env.unlink a = .error e →
        (PipelineRunner.run env cfg r mid).2 = .error (pipelineFailed e)) := by
  rcases h1 : env.record mid with e1 | a
  · refine ⟨by simp [PipelineRunner.run, h1, evKind], ?_, ?_⟩
    · simp [PipelineRunner.run, h1]
    · intro a t m o e ha
      cases ha
  · rcases h2 : env.transcribe a mid with e2 | t
    · refine ⟨by simp [PipelineRunner.run, h1, h2, evKind], ?_, ?_⟩
      · simp [PipelineRunner.run, h1, h2]
      · intro a' t m o e ha ht
        cases ha
        rw [h2] at ht
        cases ht
    · rcases h3 : env.generate_minutes t with e3 | m0
      · refine ⟨by simp [PipelineRunner.run, h1, h2, h3, evKind], ?_, ?_⟩
        · simp [PipelineRunner.run, h1, h2, h3]
        · intro a' t' m o e ha ht hg
          cases ha
          rw [h2] at ht
          cases ht
          rw [h3] at hg
          cases hg
      · rcases h4 : env.render r m0 mid with e4 | o
        · refine ⟨by simp [PipelineRunner.run, h1, h2, h3, h4, evKind], ?_, ?_⟩
          · simp [PipelineRunner.run, h1, h2, h3, h4]
          · intro a' t' m o e ha ht hg hr
            cases ha
            rw [h2] at ht
            cases ht
            rw [h3] at hg
            cases hg
            rw [h4] at hr
            cases hr
        · rcases h5 : cfg.cleanup_audio && env.pathExists a with _ | _
          · refine ⟨by simp [PipelineRunner.run, h1, h2, h3, h4, h5, evKind],
              ?_, ?_⟩
            · simp only [PipelineRunner.run, h1, h2, h3, h4, h5]
              simp only [Bool.and_eq_false_iff] at h5
              constructor
              · rintro ⟨p, hp⟩
                simp at hp
              · rintro ⟨a', t', m, o', ha, ht, hg, hr, hca, hpe⟩
                cases ha
                rcases h5 with h5 | h5
                · exact absurd hca (by simp [h5])
                · exact absurd hpe (by simp [h5])
            · intro a' t' m o' e ha ht hg hr hca hpe
              cases ha
              rw [hca, hpe] at h5
              simp at h5
          · rcases h6 : env.unlink a with e6 | u
            · refine ⟨by simp [PipelineRunner.run, h1, h2, h3, h4, h5, h6,
                  evKind], ?_, ?_⟩
              · simp only [PipelineRunner.run, h1, h2, h3, h4, h5, h6]
                simp only [Bool.and_eq_true] at h5
                constructor
                · intro _
                  exact ⟨a, t, m0, o, rfl, h2, h3, h4, h5.1, h5.2⟩
                · intro _
                  exact ⟨a, by simp⟩
              · intro a' t' m o' e ha ht hg hr hca hpe hu
                cases ha
                rw [h2] at ht
                cases ht
                rw [h3] at hg
                cases hg
                rw [h6] at hu
                cases hu
                simp [PipelineRunner.run, h1, h2, h3, h4, h5, h6]
            · refine ⟨by simp [PipelineRunner.run, h1, h2, h3, h4, h5, h6,
                  evKind], ?_, ?_⟩
              · simp only [PipelineRunner.run, h1, h2, h3, h4, h5, h6]
                simp only [Bool.and_eq_true] at h5
                constructor
                · intro _
                  exact ⟨a, t, m0, o, rfl, h2, h3, h4, h5.1, h5.2⟩
                · intro _
                  exact ⟨a, by simp⟩
              · intro a' t' m o' e ha ht hg hr hca hpe hu
                cases ha
                rw [h6] at hu
                cases hu

/-- Witness for the amended C4: all stages succeed, cleanup is enabled,
the file exists, and the failing unlink propagates as the run error. -/
theorem cleanup_after_output_success_witness :
    (PipelineRunner.run envUnlinkFail sampleConfigCleanup
        .MarkdownRenderer "m1").2 = .error (pipelineFailed "boom2") ∨
    (PipelineRunner.run envUnlinkFail sampleConfigCleanup
        .MarkdownRenderer "m1").2 = .error (pipelineFailed "unlink boom") :=
  Or.inr ((cleanup_after_output_success envUnlinkFail sampleConfigCleanup
    .MarkdownRenderer "m1").2.2 "audio.wav" sampleTranscriptSegs sampleMinutes
    "out.md" "unlink boom" rfl rfl rfl rfl rfl rfl rfl)

/-! ### C7: provider precondition validation gates the run -/

/-- C7: when every configured component passes its `validate_config`
check, `PipelineRunner.validate` returns true; when any component fails
its check, validate raises (an error value) and the pipeline run never
starts — the `run` command produces no stage invocation at all. -/
theorem validate_gates_run (env : RunEnv) (v : ComponentValidity)
    (cfg : PipelineConfig) (mid : String) :
    ((v.input && v.convert && v.llm && v.output) = true →
      PipelineRunner.validate v = .ok true)
    ∧ ((v.input && v.convert && v.llm && v.output) = false →
      (∃ e, PipelineRunner.validate v = .error e)
      ∧ (cmd_run env v cfg mid).1 = []) := by
  obtain ⟨i, c2, l, o⟩ := v
  cases hs : PipelineRunner._setup_output_renderer cfg <;>
    cases i <;> cases c2 <;> cases l <;> cases o <;>
      simp [PipelineRunner.validate, cmd_run, hs]

/-- Witness for C7: with a failing INPUT component check, validate
errors and the run trace is empty. -/
theorem validate_gates_run_witness :
    (∃ e, PipelineRunner.validate ⟨false, true, true, true⟩ = .error e)
    ∧ (cmd_run envStub ⟨false, true, true, true⟩ sampleConfigCleanup "m1").1
        = [] :=
  (validate_gates_run envStub ⟨false, true, true, true⟩
    sampleConfigCleanup "m1").2 rfl

/-! ### C1: the output stage does not fan out -/

/-- All component checks passing, used by the C1 scenario. -/
def allValid : ComponentValidity := ⟨true, true, true, true⟩

/-- A configuration with two enabled output target specs (via `outputs`)
and a legacy single `output` entry: `get_outputs` sees both specs, but
the runner only ever sets up the renderer of the legacy single entry. -/
def sampleConfigMulti : PipelineConfig :=
  { input := { provider := "file", params := [("audio_path", "./a.mp3")] }
    convert := { engine := "passthrough" }
    llm := { engine := "notebooklm" }
    output := some (.single { format := "markdown" })
    outputs := some [{ format := "markdown" }, { format := "json" }] }

/-- C1 counterexample: a run whose configuration lists two enabled
Output Target Specs executes the output stage exactly once, with the
single legacy renderer — no fan-out and no per-target outcome for the
json target. -/
theorem output_stage_no_fanout :
    sampleConfigMulti.get_outputs.length = 2
    ∧ ((cmd_run envStub allValid sampleConfigMulti "m1").1.filter
        (fun ev => evKind ev == 3))
        = [Event.output .MarkdownRenderer sampleMinutes "m1"] :=
  ⟨rfl, rfl⟩

theorem run_renderer_fixed (env : RunEnv) (cfg : PipelineConfig)
    (r : OutputRendererImpl) (mid : String) :
    (((PipelineRunner.run env cfg r mid).1.filter
        (fun ev => evKind ev == 3)).length ≤ 1)
    ∧ (∀ r' m i, Event.output r' m i ∈ (PipelineRunner.run env cfg r mid).1 →
        r' = r) := by
  rcases h1 : env.record mid with e1 | a
  · constructor
    · simp [PipelineRunner.run, h1, evKind]
    · intro r' m i hm
      simp [PipelineRunner.run, h1] at hm
  · rcases h2 : env.transcribe a mid with e2 | t
    · constructor
      · simp [PipelineRunner.run, h1, h2, evKind]
      · intro r' m i hm
        simp [PipelineRunner.run, h1, h2] at hm
    · rcases h3 : env.generate_minutes t with e3 | m0
      · constructor
        · simp [PipelineRunner.run, h1, h2, h3, evKind]
        · intro r' m i hm
          simp [PipelineRunner.run, h1, h2, h3] at hm
      · rcases h4 : env.render r m0 mid with e4 | o
        · constructor
          · simp [PipelineRunner.run, h1, h2, h3, h4, evKind]
          · intro r' m i hm
            simp [PipelineRunner.run, h1, h2, h3, h4] at hm
            exact hm.1
        · rcases h5 : cfg.cleanup_audio && env.pathExists a with _ | _
          · constructor
            · simp [PipelineRunner.run, h1, h2, h3, h4, h5, evKind]
            · intro r' m i hm
              simp [PipelineRunner.run, h1, h2, h3, h4, h5] at hm
              exact hm.1
          · rcases h6 : env.unlink a with e6 | u <;>
            · constructor
              · simp [PipelineRunner.run, h1, h2, h3, h4, h5, h6, evKind]
              · intro r' m i hm
                simp [PipelineRunner.run, h1, h2, h3, h4, h5, h6] at hm
                exact hm.1

/-- C1 (amended): whatever the configuration — in particular however
many enabled Output Target Specs it lists — a run executes the output
stage at most once, and only with the single renderer resolved from the
legacy `output` entry by `_setup_output_renderer`; no fan-out over
`get_outputs` happens. -/
theorem output_stage_single_renderer (env : RunEnv) (v : ComponentValidity)
    (cfg : PipelineConfig) (mid : String) :
    (((cmd_run env v cfg mid).1.filter (fun ev => evKind ev == 3)).length ≤ 1)
    ∧ (∀ r m i, Event.output r m i ∈ (cmd_run env v cfg mid).1 →
        PipelineRunner._setup_output_renderer cfg = .ok r) := by
  rcases hs : PipelineRunner._setup_output_renderer cfg with e | r0
  · constructor
    · simp [cmd_run, hs]
    · intro r m i hm
      simp [cmd_run, hs] at hm
  · rcases hv : PipelineRunner.validate v with e | b
    · constructor
      · simp [cmd_run, hs, hv]
      · intro r m i hm
        simp [cmd_run, hs, hv] at hm
    · have hrun := run_renderer_fixed env cfg r0 mid
      constructor
      · simpa [cmd_run, hs, hv] using hrun.1
      · intro r m i hm
        simp only [cmd_run, hs, hv] at hm
        rw [hrun.2 r m i hm]

/-- Witness for the amended C1: the single output event of the concrete
multi-spec run carries the renderer resolved from the legacy entry. -/
theorem output_stage_single_renderer_witness :
    PipelineRunner._setup_output_renderer sampleConfigMulti
      = .ok .MarkdownRenderer :=
  (output_stage_single_renderer envStub allValid sampleConfigMulti "m1").2
    .MarkdownRenderer sampleMinutes "m1" (by decide)
